import Mathlib

/-!
Verification of the Musicalia interaction pipeline
(`avatar_ai_server.py`, backend, and `musicalia_ai.py`, local variant).

Strings are modelled as `List Char`.  Python regular-expression
operations used by the source are implemented directly as executable
scanning functions; each definition's comment names the source line it
embeds.
-/

/-- Whitespace as matched by Python's `\s` / `str.strip` on `str`:
ASCII whitespace, the C1 separators, NEL, NBSP and the Unicode space
code points. -/
def isPySpace (c : Char) : Bool :=
  c == ' ' || c == '\t' || c == '\n' || c == '\r' ||
  c == Char.ofNat 0x0b || c == Char.ofNat 0x0c ||
  c == Char.ofNat 0x1c || c == Char.ofNat 0x1d ||
  c == Char.ofNat 0x1e || c == Char.ofNat 0x1f ||
  c == Char.ofNat 0x85 || c == Char.ofNat 0xa0 ||
  c == Char.ofNat 0x1680 ||
  (decide (0x2000 ≤ c.toNat) && decide (c.toNat ≤ 0x200a)) ||
  c == Char.ofNat 0x2028 || c == Char.ofNat 0x2029 ||
  c == Char.ofNat 0x202f || c == Char.ofNat 0x205f || c == Char.ofNat 0x3000

/-- Terminal punctuation used by `sentence_split` (lines 34-40). -/
def isPunct (c : Char) : Bool :=
  c == '.' || c == '!' || c == '?'

/-- Word characters as matched by Python's `\w` (Unicode mode), restricted
to ASCII alphanumerics, underscore and the Latin-1 letters that occur in
the Portuguese keyword stems. -/
def isWordChar (c : Char) : Bool :=
  c.isAlpha || c.isDigit || c == '_' ||
  (decide (0xC0 ≤ c.toNat) && decide (c.toNat ≤ 0xFF) &&
   !(c.toNat == 0xD7) && !(c.toNat == 0xF7))

/-- Python `str.lower` on the characters that occur here: ASCII letters
and the Latin-1 uppercase range. -/
def pyLower (c : Char) : Char :=
  if 'A' ≤ c ∧ c ≤ 'Z' then Char.ofNat (c.toNat + 32)
  else if 0xC0 ≤ c.toNat ∧ c.toNat ≤ 0xDE ∧ c.toNat ≠ 0xD7 then Char.ofNat (c.toNat + 32)
  else c

/-- Whether a string starts with a whitespace character. -/
def headIsSpace : List Char → Bool
  | [] => false
  | c :: _ => isPySpace c

/-- Python `str.strip()`: drop whitespace from both ends. -/
def pyStrip (l : List Char) : List Char :=
  (((l.dropWhile isPySpace).reverse.dropWhile isPySpace)).reverse

/-- Python `text.replace(p, p + " ")` for a single character `p`
(`sentence_split`, line 36: a space is inserted after every occurrence). -/
def replaceAfter (p : Char) : List Char → List Char
  | [] => []
  | c :: cs => if c = p then c :: ' ' :: replaceAfter p cs else c :: replaceAfter p cs

/-- Python `re.split(r"(?<=[.!?])\s+", text)` (`sentence_split`, line 38).
A separator is a maximal whitespace run immediately preceded by `.`, `!`
or `?`.  `acc` is the current piece reversed; `skipping` is true while
consuming a separator run (a piece boundary was just emitted). -/
def splitPunctF (acc : List Char) (skipping : Bool) : List Char → List (List Char)
  | [] => [acc.reverse]
  | c :: cs =>
    if skipping && isPySpace c then splitPunctF acc true cs
    else if isPunct c && headIsSpace cs then
      (c :: acc).reverse :: splitPunctF [] true cs
    else splitPunctF (c :: acc) false cs

/-- sentence_split (backend lines 34-40, local lines 36-42): insert a
space after every `.` `!` `?`, split on whitespace runs following those
marks, strip each fragment and drop the empty ones. -/
def sentence_split (t : List Char) : List (List Char) :=
  let t1 := replaceAfter '?' (replaceAfter '!' (replaceAfter '.' t))
  ((splitPunctF [] false t1).map pyStrip).filter (fun s => s ≠ [])

/-- happy_words (line 30 backend / 32 local). -/
def happy_words : List (List Char) :=
  ["feliz".data, "content".data, "alegre".data, "maravilhos".data, "lind".data,
   "ador".data, "fantástic".data, "important".data, "conquista".data, "orgulho".data,
   "voz".data, "inpira".data, "prémio".data, "aplauso".data, "música".data,
   "cultura".data, "fado".data, "história".data, "tradição".data, "amor".data,
   "coração".data, "emoção".data]

/-- sad_words (line 31 backend / 33 local). -/
def sad_words : List (List Char) :=
  ["triste".data, "lament".data, "infeliz".data, "pena".data, "chorar".data,
   "saudade".data, "faleceu".data, "morreu".data, "desaparec".data, "perd".data,
   "solidão".data, "dor".data, "sofrer".data, "desilusão".data, "desapont".data,
   "tristeza".data, "luto".data, "memória".data, "complicad".data, "difícil".data,
   "desgosto".data, "desaparecimento".data, "perda".data, "vazio".data, "melancolia".data]

/-- Maximal runs of word characters of a string (`cur` is the current
run reversed). -/
def wordRunsAux (cur : List Char) : List Char → List (List Char)
  | [] => if cur = [] then [] else [cur.reverse]
  | c :: cs =>
    if isWordChar c then wordRunsAux (c :: cur) cs
    else if cur = [] then wordRunsAux [] cs
    else cur.reverse :: wordRunsAux [] cs

/-- Maximal runs of word characters of a string. -/
def wordRuns (l : List Char) : List (List Char) := wordRunsAux [] l

/-- Python `len(re.findall(r"\b" + word + r"\w*\b", text))` (lines 49/54):
each non-overlapping match of a word-boundary stem-prefix pattern claims
one whole maximal word run, so the count is the number of word runs that
the stem is a literal prefix of. -/
def countStem (stem text : List Char) : Nat :=
  (wordRuns text).countP (fun w => stem.isPrefixOf w)

/-- Accumulate `score[cat] += len(matches)` over one keyword list
(`detect_emotion`, lines 47-55). -/
def scoreFor (ws : List (List Char)) (lowered : List Char) : Nat :=
  ws.foldl (fun acc w => acc + countStem w lowered) 0

/-- Happy stem-match count of a sentence (on the lowercased text). -/
def happyScore (t : List Char) : Nat := scoreFor happy_words (t.map pyLower)

/-- Sad stem-match count of a sentence (on the lowercased text). -/
def sadScore (t : List Char) : Nat := scoreFor sad_words (t.map pyLower)

/-- detect_emotion (backend lines 43-62, local lines 45-64):
0 = neutral, 1 = happy, 2 = sad. -/
def detect_emotion (t : List Char) : Nat :=
  if happyScore t = 0 ∧ sadScore t = 0 then 0
  else if sadScore t < happyScore t then 1
  else 2

/-- analyze_text (backend lines 65-72): pair each non-empty sentence with
its emotion code. -/
def analyze_text (t : List Char) : List (List Char × Nat) :=
  ((sentence_split t).filter (fun s => s ≠ [])).map (fun s => (s, detect_emotion s))

/-! ### Basic facts about whitespace stripping -/

theorem headIsSpace_dropWhile (l : List Char) :
    headIsSpace (l.dropWhile isPySpace) = false := by
  induction l with
  | nil => rfl
  | cons c cs ih =>
    rw [List.dropWhile_cons]
    by_cases h : isPySpace c
    · simpa [h] using ih
    · simp [h, headIsSpace]

theorem dropWhile_sp_eq_self (l : List Char) (h : headIsSpace l = false) :
    l.dropWhile isPySpace = l := by
  cases l with
  | nil => rfl
  | cons c cs =>
    simp only [headIsSpace] at h
    simp [List.dropWhile_cons, h]

theorem getLast?_dropWhile_sp (l : List Char) (h : l.dropWhile isPySpace ≠ []) :
    (l.dropWhile isPySpace).getLast? = l.getLast? := by
  induction l with
  | nil => simp at h
  | cons c cs ih =>
    rw [List.dropWhile_cons] at h ⊢
    by_cases hc : isPySpace c
    · simp only [hc, if_true] at h ⊢
      have hcs : cs ≠ [] := by
        intro he
        rw [he] at h
        simp at h
      rw [ih h]
      obtain ⟨d, ds, rfl⟩ := List.exists_cons_of_ne_nil hcs
      exact (List.getLast?_cons_cons ..).symm
    · simp [hc]

theorem headIsSpace_of_head? (l : List Char) (c : Char) (h : l.head? = some c) :
    headIsSpace l = isPySpace c := by
  cases l with
  | nil => simp at h
  | cons d ds =>
    simp only [List.head?_cons, Option.some_inj] at h
    simp [headIsSpace, h]

/-- pyStrip is idempotent. -/
theorem pyStrip_idem (l : List Char) : pyStrip (pyStrip l) = pyStrip l := by
  unfold pyStrip
  by_cases hb : (l.dropWhile isPySpace).reverse.dropWhile isPySpace = []
  · simp [hb]
  · set a := l.dropWhile isPySpace with ha
    set b := a.reverse.dropWhile isPySpace with hb2
    have hbne : b ≠ [] := hb
    have hane : a ≠ [] := by
      intro he
      apply hbne
      rw [hb2, he]
      rfl
    -- the head of b.reverse is the last element of b, which is the
    -- head of a, a non-space character
    have hhead : headIsSpace b.reverse = false := by
      have h1 : b.getLast? = a.reverse.getLast? := by
        rw [hb2]; exact getLast?_dropWhile_sp a.reverse hbne
      have h2 : a.reverse.getLast? = a.head? := List.getLast?_reverse a
      obtain ⟨c0, cs0, hc0⟩ := List.exists_cons_of_ne_nil hane
      have hnsp : isPySpace c0 = false := by
        have := headIsSpace_dropWhile l
        rw [← ha, hc0] at this
        simpa [headIsSpace] using this
      have h3 : b.reverse.head? = some c0 := by
        rw [List.head?_reverse, h1, h2, hc0]
        rfl
      rw [headIsSpace_of_head? b.reverse c0 h3, hnsp]
    rw [dropWhile_sp_eq_self b.reverse hhead, List.reverse_reverse,
        dropWhile_sp_eq_self b (by rw [hb2]; exact headIsSpace_dropWhile a.reverse)]

/-! ### C7: sentence_split returns non-empty trimmed fragments -/

/-- C7: for every input string, every element returned by
`sentence_split` is non-empty and carries no leading or trailing
whitespace (each fragment is stripped and empty fragments are dropped). -/
theorem sentence_split_nonempty_trimmed (t s : List Char)
    (h : s ∈ sentence_split t) : s ≠ [] ∧ pyStrip s = s := by
  unfold sentence_split at h
  rw [List.mem_filter] at h
  obtain ⟨hmem, hne⟩ := h
  rw [List.mem_map] at hmem
  obtain ⟨s0, _, rfl⟩ := hmem
  exact ⟨by simpa using hne, pyStrip_idem s0⟩

/-- C7 witness: concrete instance of `sentence_split_nonempty_trimmed`. -/
theorem sentence_split_nonempty_trimmed_witness :
    "a.".data ≠ [] ∧ pyStrip "a.".data = "a.".data :=
  sentence_split_nonempty_trimmed " a.  b".data "a.".data (by decide)

/-! ### C1: the emotion decision rule -/

/-- C1: detect_emotion returns Neutral (0) exactly when both stem-match
counts are zero, Happy (1) exactly when the happy count strictly exceeds
the sad count, and Sad (2) in every other case — in particular a positive
tie (`happyScore = sadScore > 0`) yields Sad, never Neutral. -/
theorem detect_emotion_decision_rule (t : List Char) :
    (detect_emotion t = 0 ↔ happyScore t = 0 ∧ sadScore t = 0) ∧
    (detect_emotion t = 1 ↔ sadScore t < happyScore t) ∧
    (detect_emotion t = 2 ↔ happyScore t ≤ sadScore t ∧ 0 < sadScore t) := by
  unfold detect_emotion
  refine ⟨?_, ?_, ?_⟩ <;> split_ifs with h1 h2 <;> simp <;> omega

/-! ### C8: segmentation preserves all non-whitespace characters -/

theorem filterNS_replaceAfter (p : Char) (l : List Char) :
    (replaceAfter p l).filter (fun c => !isPySpace c) =
      l.filter (fun c => !isPySpace c) := by
  induction l with
  | nil => rfl
  | cons c cs ih =>
    unfold replaceAfter
    by_cases h : c = p
    · simp only [h, if_true, List.filter_cons]
      have hsp : (!isPySpace ' ') = false := by decide
      simp [hsp, ih]
    · simp only [h, if_false, List.filter_cons, ih]

theorem filterNS_dropWhile (l : List Char) :
    (l.dropWhile isPySpace).filter (fun c => !isPySpace c) =
      l.filter (fun c => !isPySpace c) := by
  induction l with
  | nil => rfl
  | cons c cs ih =>
    rw [List.dropWhile_cons]
    by_cases h : isPySpace c
    · simp [h, ih]
    · simp [h]

theorem filterNS_pyStrip (l : List Char) :
    (pyStrip l).filter (fun c => !isPySpace c) =
      l.filter (fun c => !isPySpace c) := by
  unfold pyStrip
  rw [List.filter_reverse, filterNS_dropWhile, List.filter_reverse,
      List.reverse_reverse, filterNS_dropWhile]

theorem punct_not_space (c : Char) (h : isPunct c = true) : isPySpace c = false := by
  simp only [isPunct, Bool.or_eq_true, beq_iff_eq] at h
  rcases h with (h | h) | h <;> subst h <;> decide

theorem filterNS_splitPunctF (l acc : List Char) (sk : Bool) :
    ((splitPunctF acc sk l).flatten).filter (fun c => !isPySpace c) =
      (acc.reverse.filter (fun c => !isPySpace c)) ++
        l.filter (fun c => !isPySpace c) := by
  induction l generalizing acc sk with
  | nil => simp [splitPunctF]
  | cons c cs ih =>
    unfold splitPunctF
    by_cases h1 : (sk && isPySpace c) = true
    · rw [if_pos h1, ih]
      have hc : isPySpace c = true := (Bool.and_eq_true_iff.mp h1).2
      simp [List.filter_cons, hc]
    · rw [if_neg h1]
      by_cases h2 : (isPunct c && headIsSpace cs) = true
      · rw [if_pos h2]
        have hc : isPySpace c = false :=
          punct_not_space c (Bool.and_eq_true_iff.mp h2).1
        rw [List.flatten_cons, List.filter_append, ih]
        simp [List.reverse_cons, List.filter_append, List.filter_cons, hc,
          List.append_assoc]
      · rw [if_neg h2, ih]
        simp only [List.reverse_cons, List.filter_append, List.filter_cons]
        by_cases hc : isPySpace c <;> simp [hc, List.append_assoc]

theorem flatten_filter_ne_nil (L : List (List Char)) :
    (L.filter (fun s => s ≠ [])).flatten = L.flatten := by
  induction L with
  | nil => rfl
  | cons s ss ih =>
    rw [List.filter_cons]
    by_cases h : s = []
    · rw [if_neg (by simpa using h)]
      rw [List.flatten_cons, ih, h]
      rfl
    · rw [if_pos (by simpa using h)]
      rw [List.flatten_cons, List.flatten_cons, ih]

theorem filterNS_flatten_map_pyStrip (L : List (List Char)) :
    ((L.map pyStrip).flatten).filter (fun c => !isPySpace c) =
      (L.flatten).filter (fun c => !isPySpace c) := by
  induction L with
  | nil => rfl
  | cons s ss ih =>
    simp only [List.map_cons, List.flatten_cons, List.filter_append, ih,
      filterNS_pyStrip]

/-- C8: concatenating the fragments returned by `sentence_split`,
ignoring all whitespace characters, preserves every non-whitespace
character of the input (in particular every non-punctuation character)
in order: the segmenter only inserts spaces and splits on whitespace
runs following the punctuation marks. -/
theorem sentence_split_preserves_chars (t : List Char) :
    ((sentence_split t).flatten).filter (fun c => !isPySpace c) =
      t.filter (fun c => !isPySpace c) := by
  unfold sentence_split
  rw [flatten_filter_ne_nil, filterNS_flatten_map_pyStrip,
      filterNS_splitPunctF, filterNS_replaceAfter, filterNS_replaceAfter,
      filterNS_replaceAfter]
  rfl

/-! ### C10: every fragment but the last ends with terminal punctuation -/

/-- Whether a string's final character is one of `.` `!` `?`. -/
def lastIsPunct (s : List Char) : Bool :=
  match s.getLast? with
  | some c => isPunct c
  | none => false

theorem splitPunctF_ne_nil (l acc : List Char) (sk : Bool) :
    splitPunctF acc sk l ≠ [] := by
  induction l generalizing acc sk with
  | nil => simp [splitPunctF]
  | cons c cs ih =>
    unfold splitPunctF
    by_cases h1 : (sk && isPySpace c) = true
    · rw [if_pos h1]; exact ih _ _
    · rw [if_neg h1]
      by_cases h2 : (isPunct c && headIsSpace cs) = true
      · rw [if_pos h2]; exact List.cons_ne_nil _ _
      · rw [if_neg h2]; exact ih _ _

theorem splitPunctF_dropLast_punct (l acc : List Char) (sk : Bool) (s : List Char)
    (h : s ∈ (splitPunctF acc sk l).dropLast) : lastIsPunct s = true := by
  induction l generalizing acc sk with
  | nil => simp [splitPunctF] at h
  | cons c cs ih =>
    unfold splitPunctF at h
    by_cases h1 : (sk && isPySpace c) = true
    · rw [if_pos h1] at h; exact ih _ _ h
    · rw [if_neg h1] at h
      by_cases h2 : (isPunct c && headIsSpace cs) = true
      · rw [if_pos h2] at h
        obtain ⟨r, rs, hr⟩ :=
          List.exists_cons_of_ne_nil (splitPunctF_ne_nil cs [] true)
        rw [hr, List.dropLast_cons₂, List.mem_cons] at h
        rcases h with h | h
        · subst h
          simp only [lastIsPunct, List.getLast?_reverse, List.head?_cons]
          exact (Bool.and_eq_true_iff.mp h2).1
        · rw [← hr] at h; exact ih _ _ h
      · rw [if_neg h2] at h; exact ih _ _ h

/-- When a string ends with a non-space character, stripping only removes
a whitespace prefix; the final character survives. -/
theorem pyStrip_of_last_not_space (s : List Char) (c : Char)
    (hlast : s.getLast? = some c) (hnsp : isPySpace c = false) :
    pyStrip s = s.dropWhile isPySpace ∧ pyStrip s ≠ [] ∧
      (pyStrip s).getLast? = some c := by
  have hane : s.dropWhile isPySpace ≠ [] := by
    intro he
    rw [List.dropWhile_eq_nil_iff] at he
    obtain ⟨hne, hc⟩ := List.mem_getLast?_eq_getLast (by rw [hlast]; rfl)
    have := he c (hc ▸ List.getLast_mem hne)
    simp [this] at hnsp
  have hlast2 : (s.dropWhile isPySpace).getLast? = some c := by
    rw [getLast?_dropWhile_sp s hane, hlast]
  have hrevhead : headIsSpace (s.dropWhile isPySpace).reverse = false := by
    rw [headIsSpace_of_head? _ c (by rw [List.head?_reverse, hlast2]), hnsp]
  constructor
  · unfold pyStrip
    rw [dropWhile_sp_eq_self _ hrevhead, List.reverse_reverse]
  · rw [show pyStrip s = s.dropWhile isPySpace by
      unfold pyStrip
      rw [dropWhile_sp_eq_self _ hrevhead, List.reverse_reverse]]
    exact ⟨hane, hlast2⟩

theorem mem_dropLast_filter_ne_nil (L : List (List Char))
    (Q : List Char → Prop)
    (hQ : ∀ s ∈ L.dropLast, Q s) (hne : ∀ s ∈ L.dropLast, s ≠ [])
    (s : List Char) (hs : s ∈ (L.filter (fun x => x ≠ [])).dropLast) : Q s := by
  induction L using List.reverseRecOn with
  | nil => simp at hs
  | append_singleton xs a ih =>
    rw [List.dropLast_concat] at hQ hne
    have hfx : xs.filter (fun x => x ≠ []) = xs :=
      List.filter_eq_self.mpr (fun x hx => by simpa using hne x hx)
    rw [List.filter_append, hfx] at hs
    by_cases ha : a = []
    · rw [show List.filter (fun x => x ≠ []) [a] = [] by simp [ha]] at hs
      rw [List.append_nil] at hs
      exact hQ s (List.dropLast_sublist xs |>.subset hs)
    · rw [show List.filter (fun x => x ≠ []) [a] = [a] by simp [ha]] at hs
      rw [List.dropLast_concat] at hs
      exact hQ s hs

/-- C10: every element of `sentence_split`'s result except possibly the
last one ends with one of `.` `!` `?` — the split boundary consumes only
the whitespace following the mark, so the mark stays at the end of its
fragment. -/
theorem sentence_split_init_end_punct (t s : List Char)
    (h : s ∈ (sentence_split t).dropLast) : lastIsPunct s = true := by
  unfold sentence_split at h
  refine mem_dropLast_filter_ne_nil _ (fun x => lastIsPunct x = true) ?_ ?_ s h
  all_goals
    intro x hx
    rw [← List.map_dropLast] at hx
    rw [List.mem_map] at hx
    obtain ⟨x0, hx0, rfl⟩ := hx
    have hp := splitPunctF_dropLast_punct _ _ _ _ hx0
    unfold lastIsPunct at hp
    rcases hc : x0.getLast? with _ | c
    · rw [hc] at hp; exact absurd hp (by simp)
    · rw [hc] at hp
      obtain ⟨-, hne, hlast⟩ :=
        pyStrip_of_last_not_space x0 c hc (punct_not_space c hp)
      first
      | exact (show lastIsPunct (pyStrip x0) = true by
          unfold lastIsPunct
          rw [hlast]
          exact hp)
      | exact hne

/-- C10 witness: concrete instance of `sentence_split_init_end_punct`. -/
theorem sentence_split_init_end_punct_witness :
    lastIsPunct "a.".data = true :=
  sentence_split_init_end_punct "a. b".data "a.".data (by decide)

/-! ### clean_text_for_tts (backend lines 433-468)

Each `re.sub` of the source is embedded as an executable scanner.  The
scanners that jump over a match are driven by a fuel argument (the input
length bounds the number of scanning steps), which keeps them
structurally recursive and hence computable by `decide`/`rfl`. -/

/-- Scan for the closest `**` reachable without crossing a newline
(`.` does not match `\n`), returning the inner text and the remainder
after the closing delimiter. -/
def findClose2 : List Char → Option (List Char × List Char)
  | [] => none
  | c :: cs =>
    if c = '*' then
      match cs with
      | c2 :: cs2 =>
        if c2 = '*' then some ([], cs2)
        else (findClose2 cs).map (fun p => (c :: p.1, p.2))
      | [] => none
    else if c = '\n' then none
    else (findClose2 cs).map (fun p => (c :: p.1, p.2))

/-- Scan for the closest occurrence of the single-character delimiter
`d`, not crossing a newline. -/
def findCloseDelim (d : Char) : List Char → Option (List Char × List Char)
  | [] => none
  | c :: cs =>
    if c = d then some ([], cs)
    else if c = '\n' then none
    else (findCloseDelim d cs).map (fun p => (c :: p.1, p.2))

/-- Scan for the closest `_` (newlines allowed: the source class `[^_]`
matches them). -/
def findCloseU : List Char → Option (List Char × List Char)
  | [] => none
  | c :: cs =>
    if c = '_' then some ([], cs)
    else (findCloseU cs).map (fun p => (c :: p.1, p.2))

/-- `re.sub(r"\*\*(.*?)\*\*", r"\1", text)` (line 435).  On a failed
match at `**…` the scan restarts from the second star (which Python's
engine would try next). -/
def subDStarFuel : Nat → List Char → List Char
  | 0, l => l
  | _ + 1, [] => []
  | f + 1, c :: cs =>
    if c = '*' then
      match cs with
      | c2 :: cs2 =>
        if c2 = '*' then
          match findClose2 cs2 with
          | some p => p.1 ++ subDStarFuel f p.2
          | none => c :: subDStarFuel f cs
        else c :: subDStarFuel f cs
      | [] => c :: subDStarFuel f cs
    else c :: subDStarFuel f cs

/-- `re.sub(r"\*(.*?)\*", r"\1", text)` (line 436) for `d = '*'` and
`re.sub` with backtick delimiters (line 439) for `d` the backtick.  When
no closing delimiter is reachable, the region up to the newline contains
no delimiter at all, so the scan may safely resume after the opener. -/
def subDelimFuel (d : Char) : Nat → List Char → List Char
  | 0, l => l
  | _ + 1, [] => []
  | f + 1, c :: cs =>
    if c = d then
      match findCloseDelim d cs with
      | some p => p.1 ++ subDelimFuel d f p.2
      | none => c :: subDelimFuel d f cs
    else c :: subDelimFuel d f cs

/-- `re.sub(r"_([^_]+)_", r"\1", text)` (line 437).  An immediately
adjacent `__` is not a match (the class requires at least one inner
character); the scan then resumes from the second underscore. -/
def subUnderscoreFuel : Nat → List Char → List Char
  | 0, l => l
  | _ + 1, [] => []
  | f + 1, c :: cs =>
    if c = '_' then
      match findCloseU cs with
      | some p =>
        if p.1 = [] then c :: subUnderscoreFuel f cs
        else p.1 ++ subUnderscoreFuel f p.2
      | none => c :: subUnderscoreFuel f cs
    else c :: subUnderscoreFuel f cs

/-- Bullet characters of the class `[-•*]` (line 442). -/
def isBullet (c : Char) : Bool :=
  c == '-' || c == '•' || c == '*'

/-- Characters of the class `[\.\)\-]` of the numbered-list pattern
(line 445). -/
def isNumPunct (c : Char) : Bool :=
  c == '.' || c == ')' || c == '-'

/-- Attempt to match `\s*[-•*]+\s*` at a line-start position: maximal
whitespace, at least one bullet, maximal bullets, maximal trailing
whitespace.  Returns the line-start status of the continuation position
(true iff the last consumed character is a newline) and the remainder. -/
def bulletMatch (l : List Char) : Option (Bool × List Char) :=
  match l.dropWhile isPySpace with
  | [] => none
  | d :: ds =>
    if isBullet d then
      let afterB := ds.dropWhile isBullet
      let ws2 := afterB.takeWhile isPySpace
      some (ws2.getLast? == some '\n', afterB.dropWhile isPySpace)
    else none

/-- Unicode decimal digits (category Nd), the character set Python's
`\d` matches in str patterns: the 62 contiguous ranges of the Unicode
data CPython ships. -/
def isPyDigit (c : Char) : Bool :=
  (decide (0x30 ≤ c.toNat) && decide (c.toNat ≤ 0x39)) ||
  (decide (0x660 ≤ c.toNat) && decide (c.toNat ≤ 0x669)) ||
  (decide (0x6f0 ≤ c.toNat) && decide (c.toNat ≤ 0x6f9)) ||
  (decide (0x7c0 ≤ c.toNat) && decide (c.toNat ≤ 0x7c9)) ||
  (decide (0x966 ≤ c.toNat) && decide (c.toNat ≤ 0x96f)) ||
  (decide (0x9e6 ≤ c.toNat) && decide (c.toNat ≤ 0x9ef)) ||
  (decide (0xa66 ≤ c.toNat) && decide (c.toNat ≤ 0xa6f)) ||
  (decide (0xae6 ≤ c.toNat) && decide (c.toNat ≤ 0xaef)) ||
  (decide (0xb66 ≤ c.toNat) && decide (c.toNat ≤ 0xb6f)) ||
  (decide (0xbe6 ≤ c.toNat) && decide (c.toNat ≤ 0xbef)) ||
  (decide (0xc66 ≤ c.toNat) && decide (c.toNat ≤ 0xc6f)) ||
  (decide (0xce6 ≤ c.toNat) && decide (c.toNat ≤ 0xcef)) ||
  (decide (0xd66 ≤ c.toNat) && decide (c.toNat ≤ 0xd6f)) ||
  (decide (0xde6 ≤ c.toNat) && decide (c.toNat ≤ 0xdef)) ||
  (decide (0xe50 ≤ c.toNat) && decide (c.toNat ≤ 0xe59)) ||
  (decide (0xed0 ≤ c.toNat) && decide (c.toNat ≤ 0xed9)) ||
  (decide (0xf20 ≤ c.toNat) && decide (c.toNat ≤ 0xf29)) ||
  (decide (0x1040 ≤ c.toNat) && decide (c.toNat ≤ 0x1049)) ||
  (decide (0x1090 ≤ c.toNat) && decide (c.toNat ≤ 0x1099)) ||
  (decide (0x17e0 ≤ c.toNat) && decide (c.toNat ≤ 0x17e9)) ||
  (decide (0x1810 ≤ c.toNat) && decide (c.toNat ≤ 0x1819)) ||
  (decide (0x1946 ≤ c.toNat) && decide (c.toNat ≤ 0x194f)) ||
  (decide (0x19d0 ≤ c.toNat) && decide (c.toNat ≤ 0x19d9)) ||
  (decide (0x1a80 ≤ c.toNat) && decide (c.toNat ≤ 0x1a89)) ||
  (decide (0x1a90 ≤ c.toNat) && decide (c.toNat ≤ 0x1a99)) ||
  (decide (0x1b50 ≤ c.toNat) && decide (c.toNat ≤ 0x1b59)) ||
  (decide (0x1bb0 ≤ c.toNat) && decide (c.toNat ≤ 0x1bb9)) ||
  (decide (0x1c40 ≤ c.toNat) && decide (c.toNat ≤ 0x1c49)) ||
  (decide (0x1c50 ≤ c.toNat) && decide (c.toNat ≤ 0x1c59)) ||
  (decide (0xa620 ≤ c.toNat) && decide (c.toNat ≤ 0xa629)) ||
  (decide (0xa8d0 ≤ c.toNat) && decide (c.toNat ≤ 0xa8d9)) ||
  (decide (0xa900 ≤ c.toNat) && decide (c.toNat ≤ 0xa909)) ||
  (decide (0xa9d0 ≤ c.toNat) && decide (c.toNat ≤ 0xa9d9)) ||
  (decide (0xa9f0 ≤ c.toNat) && decide (c.toNat ≤ 0xa9f9)) ||
  (decide (0xaa50 ≤ c.toNat) && decide (c.toNat ≤ 0xaa59)) ||
  (decide (0xabf0 ≤ c.toNat) && decide (c.toNat ≤ 0xabf9)) ||
  (decide (0xff10 ≤ c.toNat) && decide (c.toNat ≤ 0xff19)) ||
  (decide (0x104a0 ≤ c.toNat) && decide (c.toNat ≤ 0x104a9)) ||
  (decide (0x10d30 ≤ c.toNat) && decide (c.toNat ≤ 0x10d39)) ||
  (decide (0x11066 ≤ c.toNat) && decide (c.toNat ≤ 0x1106f)) ||
  (decide (0x110f0 ≤ c.toNat) && decide (c.toNat ≤ 0x110f9)) ||
  (decide (0x11136 ≤ c.toNat) && decide (c.toNat ≤ 0x1113f)) ||
  (decide (0x111d0 ≤ c.toNat) && decide (c.toNat ≤ 0x111d9)) ||
  (decide (0x112f0 ≤ c.toNat) && decide (c.toNat ≤ 0x112f9)) ||
  (decide (0x11450 ≤ c.toNat) && decide (c.toNat ≤ 0x11459)) ||
  (decide (0x114d0 ≤ c.toNat) && decide (c.toNat ≤ 0x114d9)) ||
  (decide (0x11650 ≤ c.toNat) && decide (c.toNat ≤ 0x11659)) ||
  (decide (0x116c0 ≤ c.toNat) && decide (c.toNat ≤ 0x116c9)) ||
  (decide (0x11730 ≤ c.toNat) && decide (c.toNat ≤ 0x11739)) ||
  (decide (0x118e0 ≤ c.toNat) && decide (c.toNat ≤ 0x118e9)) ||
  (decide (0x11950 ≤ c.toNat) && decide (c.toNat ≤ 0x11959)) ||
  (decide (0x11c50 ≤ c.toNat) && decide (c.toNat ≤ 0x11c59)) ||
  (decide (0x11d50 ≤ c.toNat) && decide (c.toNat ≤ 0x11d59)) ||
  (decide (0x11da0 ≤ c.toNat) && decide (c.toNat ≤ 0x11da9)) ||
  (decide (0x16a60 ≤ c.toNat) && decide (c.toNat ≤ 0x16a69)) ||
  (decide (0x16ac0 ≤ c.toNat) && decide (c.toNat ≤ 0x16ac9)) ||
  (decide (0x16b50 ≤ c.toNat) && decide (c.toNat ≤ 0x16b59)) ||
  (decide (0x1d7ce ≤ c.toNat) && decide (c.toNat ≤ 0x1d7ff)) ||
  (decide (0x1e140 ≤ c.toNat) && decide (c.toNat ≤ 0x1e149)) ||
  (decide (0x1e2f0 ≤ c.toNat) && decide (c.toNat ≤ 0x1e2f9)) ||
  (decide (0x1e950 ≤ c.toNat) && decide (c.toNat ≤ 0x1e959)) ||
  (decide (0x1fbf0 ≤ c.toNat) && decide (c.toNat ≤ 0x1fbf9))

/-- Attempt to match `\s*\d+[\.\)\-]+\s*` at a line-start position
(maximal whitespace, at least one digit, maximal digits, at least one of
`.` `)` `-`, maximal such, maximal trailing whitespace; `\d` is the
Unicode decimal-digit class `isPyDigit`). -/
def numMatch (l : List Char) : Option (Bool × List Char) :=
  match l.dropWhile isPySpace with
  | [] => none
  | d :: ds =>
    if isPyDigit d then
      match ds.dropWhile isPyDigit with
      | [] => none
      | p :: ps =>
        if isNumPunct p then
          let afterP := ps.dropWhile isNumPunct
          let ws2 := afterP.takeWhile isPySpace
          some (ws2.getLast? == some '\n', afterP.dropWhile isPySpace)
        else none
    else none

/-- `re.sub(r"^\s*[-•*]+\s*", "", text, flags=re.MULTILINE)` (line 442).
`atStart` records whether the current position is a MULTILINE `^`
position of the original text. -/
def subBulletsFuel : Nat → Bool → List Char → List Char
  | 0, _, l => l
  | _ + 1, _, [] => []
  | f + 1, atStart, c :: cs =>
    if atStart then
      match bulletMatch (c :: cs) with
      | some br => subBulletsFuel f br.1 br.2
      | none => c :: subBulletsFuel f (c == '\n') cs
    else c :: subBulletsFuel f (c == '\n') cs

/-- `re.sub(r"^\s*\d+[\.\)\-]+\s*", "", text, flags=re.MULTILINE)`
(line 445). -/
def subNumFuel : Nat → Bool → List Char → List Char
  | 0, _, l => l
  | _ + 1, _, [] => []
  | f + 1, atStart, c :: cs =>
    if atStart then
      match numMatch (c :: cs) with
      | some br => subNumFuel f br.1 br.2
      | none => c :: subNumFuel f (c == '\n') cs
    else c :: subNumFuel f (c == '\n') cs

/-- Emoji code-point ranges removed by the compiled pattern of lines
448-456. -/
def isEmoji (c : Char) : Bool :=
  (decide (0x1F600 ≤ c.toNat) && decide (c.toNat ≤ 0x1F64F)) ||
  (decide (0x1F300 ≤ c.toNat) && decide (c.toNat ≤ 0x1F5FF)) ||
  (decide (0x1F680 ≤ c.toNat) && decide (c.toNat ≤ 0x1F6FF)) ||
  (decide (0x1F1E0 ≤ c.toNat) && decide (c.toNat ≤ 0x1F1FF)) ||
  (decide (0x2600 ≤ c.toNat) && decide (c.toNat ≤ 0x26FF)) ||
  (decide (0x2700 ≤ c.toNat) && decide (c.toNat ≤ 0x27BF)) ||
  c == Char.ofNat 0xFE0F

/-- Code points of the decorative-glyph class of line 460 (the composed
glyphs of the source contribute their base character plus U+FE0F). -/
def symbol_chars : List Char :=
  ['•', Char.ofNat 0x25AA, Char.ofNat 0xFE0F, Char.ofNat 0x2714,
   Char.ofNat 0x2716, Char.ofNat 0x27A1, '★', '☆', '→', '←', '↑', '↓',
   '◆', '■', '«', '»', Char.ofNat 0x201C, Char.ofNat 0x201D]

/-- Membership in the decorative-glyph class of line 460. -/
def isSymbolChar (c : Char) : Bool := symbol_chars.contains c

/-- `re.sub(r"\n+", " ", text)` (line 463): `skipping` is true while
inside a newline run whose first character was already replaced. -/
def subNewlinesF (skipping : Bool) : List Char → List Char
  | [] => []
  | c :: cs =>
    if c = '\n' then
      if skipping then subNewlinesF true cs else ' ' :: subNewlinesF true cs
    else c :: subNewlinesF false cs

/-- `re.sub(r"\s+", " ", text)` (line 466): collapse every whitespace
run to a single space. -/
def collapseWsF (skipping : Bool) : List Char → List Char
  | [] => []
  | c :: cs =>
    if isPySpace c then
      if skipping then collapseWsF true cs else ' ' :: collapseWsF true cs
    else c :: collapseWsF false cs

/-- clean_text_for_tts (backend lines 433-468): strip markdown emphasis,
code spans, bullet and numbered list markers, emoji, decorative glyphs,
then collapse newlines and whitespace and trim. -/
def clean_text_for_tts (t : List Char) : List Char :=
  let t1 := subDStarFuel t.length t
  let t2 := subDelimFuel '*' t1.length t1
  let t3 := subUnderscoreFuel t2.length t2
  let t4 := subDelimFuel (Char.ofNat 96) t3.length t3
  let t5 := subBulletsFuel t4.length true t4
  let t6 := subNumFuel t5.length true t5
  let t7 := t6.filter (fun c => !isEmoji c)
  let t8 := t7.filter (fun c => !isSymbolChar c)
  let t9 := subNewlinesF false t8
  pyStrip (collapseWsF false t9)

/-! ### C2: sanitizer idempotence -/

/-- C2 counterexample: `clean_text_for_tts` is not idempotent.  On
"1.2." the numbered-list pattern removes the prefix "1." and only a
second pass removes the newly exposed "2.", so one application yields
"2." while two applications yield the empty string; the same happens
with non-ASCII decimal digits such as Arabic-Indic "٣.٤." (Python's
`\d` matches every Unicode decimal digit). -/
theorem clean_text_for_tts_not_idempotent :
    clean_text_for_tts (clean_text_for_tts "1.2.".data) ≠
      clean_text_for_tts "1.2.".data ∧
    clean_text_for_tts "1.2.".data = "2.".data ∧
    clean_text_for_tts (clean_text_for_tts "1.2.".data) = [] ∧
    clean_text_for_tts "٣.٤.".data = "٤.".data ∧
    clean_text_for_tts (clean_text_for_tts "٣.٤.".data) = [] := by
  decide

theorem subDStarFuel_no_star (l : List Char) (h : ∀ c ∈ l, c ≠ '*') :
    ∀ f, subDStarFuel f l = l := by
  induction l with
  | nil => intro f; cases f <;> rfl
  | cons c cs ih =>
    intro f
    cases f with
    | zero => rfl
    | succ f =>
      have hc : ¬(c = '*') := h c (List.mem_cons_self _ _)
      simp only [subDStarFuel, if_neg hc]
      rw [ih (fun x hx => h x (List.mem_cons_of_mem _ hx)) f]

theorem subDelimFuel_no_delim (d : Char) (l : List Char) (h : ∀ c ∈ l, c ≠ d) :
    ∀ f, subDelimFuel d f l = l := by
  induction l with
  | nil => intro f; cases f <;> rfl
  | cons c cs ih =>
    intro f
    cases f with
    | zero => rfl
    | succ f =>
      have hc : ¬(c = d) := h c (List.mem_cons_self _ _)
      simp only [subDelimFuel, if_neg hc]
      rw [ih (fun x hx => h x (List.mem_cons_of_mem _ hx)) f]

theorem subUnderscoreFuel_no_underscore (l : List Char) (h : ∀ c ∈ l, c ≠ '_') :
    ∀ f, subUnderscoreFuel f l = l := by
  induction l with
  | nil => intro f; cases f <;> rfl
  | cons c cs ih =>
    intro f
    cases f with
    | zero => rfl
    | succ f =>
      have hc : ¬(c = '_') := h c (List.mem_cons_self _ _)
      simp only [subUnderscoreFuel, if_neg hc]
      rw [ih (fun x hx => h x (List.mem_cons_of_mem _ hx)) f]

theorem bulletMatch_none (l : List Char) (h : ∀ c ∈ l, isBullet c = false) :
    bulletMatch l = none := by
  unfold bulletMatch
  cases hd : l.dropWhile isPySpace with
  | nil => rfl
  | cons d ds =>
    have hdm : d ∈ l := by
      refine (List.dropWhile_sublist isPySpace).subset ?_
      rw [hd]
      exact (List.mem_cons_self _ _)
    simp [h d hdm]

theorem subBulletsFuel_no_bullet (l : List Char) (h : ∀ c ∈ l, isBullet c = false) :
    ∀ f b, subBulletsFuel f b l = l := by
  induction l with
  | nil => intro f b; cases f <;> rfl
  | cons c cs ih =>
    intro f b
    cases f with
    | zero => rfl
    | succ f =>
      have ht : cs.length ≤ cs.length := le_refl _
      have hrest := ih (fun x hx => h x (List.mem_cons_of_mem _ hx))
      cases b with
      | false =>
        show c :: subBulletsFuel f (c == '\n') cs = c :: cs
        rw [hrest]
      | true =>
        show (match bulletMatch (c :: cs) with
          | some br => subBulletsFuel f br.1 br.2
          | none => c :: subBulletsFuel f (c == '\n') cs) = c :: cs
        rw [bulletMatch_none _ h]
        show c :: subBulletsFuel f (c == '\n') cs = c :: cs
        rw [hrest]

theorem numMatch_none (l : List Char) (h : ∀ c ∈ l, isPyDigit c = false) :
    numMatch l = none := by
  unfold numMatch
  cases hd : l.dropWhile isPySpace with
  | nil => rfl
  | cons d ds =>
    have hdm : d ∈ l := by
      refine (List.dropWhile_sublist isPySpace).subset ?_
      rw [hd]
      exact (List.mem_cons_self _ _)
    simp [h d hdm]

theorem subNumFuel_no_digit (l : List Char) (h : ∀ c ∈ l, isPyDigit c = false) :
    ∀ f b, subNumFuel f b l = l := by
  induction l with
  | nil => intro f b; cases f <;> rfl
  | cons c cs ih =>
    intro f b
    cases f with
    | zero => rfl
    | succ f =>
      have hrest := ih (fun x hx => h x (List.mem_cons_of_mem _ hx))
      cases b with
      | false =>
        show c :: subNumFuel f (c == '\n') cs = c :: cs
        rw [hrest]
      | true =>
        show (match numMatch (c :: cs) with
          | some br => subNumFuel f br.1 br.2
          | none => c :: subNumFuel f (c == '\n') cs) = c :: cs
        rw [numMatch_none _ h]
        show c :: subNumFuel f (c == '\n') cs = c :: cs
        rw [hrest]

theorem subNewlinesF_no_newline (l : List Char) (h : ∀ c ∈ l, c ≠ '\n') :
    ∀ sk, subNewlinesF sk l = l := by
  induction l with
  | nil => intro sk; rfl
  | cons c cs ih =>
    intro sk
    have hc : ¬(c = '\n') := h c (List.mem_cons_self _ _)
    simp only [subNewlinesF, if_neg hc]
    rw [ih (fun x hx => h x (List.mem_cons_of_mem _ hx)) false]

/-- A string is well-spaced when every whitespace character in it is a
plain space and no two whitespace characters are adjacent — the shape
`re.sub(r"\s+", " ", ·)` produces. -/
def wellSpaced : List Char → Bool
  | [] => true
  | c :: cs =>
    (if isPySpace c then c == ' ' && !headIsSpace cs else true) && wellSpaced cs

theorem headIsSpace_collapseWsF_true (l : List Char) :
    headIsSpace (collapseWsF true l) = false := by
  induction l with
  | nil => rfl
  | cons c cs ih =>
    by_cases h : isPySpace c
    · simpa [collapseWsF, h] using ih
    · simp [collapseWsF, h, headIsSpace]

theorem wellSpaced_collapseWsF (l : List Char) :
    ∀ sk, wellSpaced (collapseWsF sk l) = true := by
  induction l with
  | nil => intro sk; rfl
  | cons c cs ih =>
    intro sk
    by_cases h : isPySpace c
    · cases sk with
      | true => simpa [collapseWsF, h] using ih true
      | false =>
        simp only [collapseWsF, h, if_true]
        simp only [wellSpaced]
        have hsp : isPySpace ' ' = true := by decide
        rw [if_pos hsp]
        simp [headIsSpace_collapseWsF_true, ih true]
    · simp only [collapseWsF, h, if_false]
      simp only [wellSpaced]
      rw [if_neg h]
      simp [ih false]

theorem collapseWsF_true_of_head (l : List Char) (h : headIsSpace l = false) :
    collapseWsF true l = collapseWsF false l := by
  cases l with
  | nil => rfl
  | cons c cs =>
    simp only [headIsSpace] at h
    simp [collapseWsF, h]

theorem collapseWsF_of_wellSpaced (l : List Char) (h : wellSpaced l = true) :
    collapseWsF false l = l := by
  induction l with
  | nil => rfl
  | cons c cs ih =>
    simp only [wellSpaced, Bool.and_eq_true_iff] at h
    obtain ⟨hcond, hws⟩ := h
    by_cases hc : isPySpace c
    · rw [if_pos hc, Bool.and_eq_true_iff] at hcond
      obtain ⟨hsp, hhead⟩ := hcond
      have hce : c = ' ' := by simpa using hsp
      have hh : headIsSpace cs = false := by simpa using hhead
      show collapseWsF false (c :: cs) = c :: cs
      rw [show collapseWsF false (c :: cs) =
            ' ' :: collapseWsF true cs by simp [collapseWsF, hc]]
      rw [collapseWsF_true_of_head cs hh, ih hws, hce]
    · show collapseWsF false (c :: cs) = c :: cs
      rw [show collapseWsF false (c :: cs) =
            c :: collapseWsF false cs by simp [collapseWsF, hc]]
      rw [ih hws]

theorem wellSpaced_append_left (l₁ l₂ : List Char)
    (h : wellSpaced (l₁ ++ l₂) = true) : wellSpaced l₁ = true := by
  induction l₁ with
  | nil => rfl
  | cons c cs ih =>
    simp only [List.cons_append, wellSpaced, Bool.and_eq_true_iff] at h ⊢
    obtain ⟨hcond, hws⟩ := h
    refine ⟨?_, ih hws⟩
    by_cases hc : isPySpace c
    · rw [if_pos hc] at hcond ⊢
      rw [Bool.and_eq_true_iff] at hcond
      obtain ⟨hsp, hhead⟩ := hcond
      refine Bool.and_eq_true_iff.mpr ⟨hsp, ?_⟩
      cases cs with
      | nil => rfl
      | cons d ds => simpa [headIsSpace] using hhead
    · rw [if_neg hc] at hcond ⊢

theorem wellSpaced_append_right (l₁ l₂ : List Char)
    (h : wellSpaced (l₁ ++ l₂) = true) : wellSpaced l₂ = true := by
  induction l₁ with
  | nil => exact h
  | cons c cs ih =>
    simp only [List.cons_append, wellSpaced, Bool.and_eq_true_iff] at h
    exact ih h.2

theorem wellSpaced_pyStrip (l : List Char) (h : wellSpaced l = true) :
    wellSpaced (pyStrip l) = true := by
  unfold pyStrip
  set a := l.dropWhile isPySpace with ha
  have hwa : wellSpaced a = true := by
    have h2 := h
    rw [← List.takeWhile_append_dropWhile isPySpace l] at h2
    exact wellSpaced_append_right _ _ h2
  have hsplit : a = (a.reverse.dropWhile isPySpace).reverse ++
      (a.reverse.takeWhile isPySpace).reverse := by
    conv_lhs => rw [← List.reverse_reverse a,
      ← List.takeWhile_append_dropWhile isPySpace a.reverse]
    rw [List.reverse_append]
  rw [hsplit] at hwa
  exact wellSpaced_append_left _ _ hwa

theorem mem_collapseWsF (l : List Char) (c : Char) :
    ∀ sk, c ∈ collapseWsF sk l → c = ' ' ∨ c ∈ l := by
  induction l with
  | nil => intro sk h; simp [collapseWsF] at h
  | cons d ds ih =>
    intro sk h
    by_cases hd : isPySpace d
    · cases sk with
      | true =>
        have h2 : c ∈ collapseWsF true ds := by
          rw [show collapseWsF true (d :: ds) =
                collapseWsF true ds by simp [collapseWsF, hd]] at h
          exact h
        rcases ih true h2 with h' | h'
        · exact Or.inl h'
        · exact Or.inr (List.mem_cons_of_mem _ h')
      | false =>
        rw [show collapseWsF false (d :: ds) =
              ' ' :: collapseWsF true ds by simp [collapseWsF, hd]] at h
        rcases List.mem_cons.mp h with h2 | h2
        · exact Or.inl h2
        · rcases ih true h2 with h' | h'
          · exact Or.inl h'
          · exact Or.inr (List.mem_cons_of_mem _ h')
    · rw [show collapseWsF sk (d :: ds) =
            d :: collapseWsF false ds by simp [collapseWsF, hd]] at h
      rcases List.mem_cons.mp h with h2 | h2
      · exact Or.inr (h2 ▸ List.mem_cons_self _ _)
      · rcases ih false h2 with h' | h'
        · exact Or.inl h'
        · exact Or.inr (List.mem_cons_of_mem _ h')

theorem mem_pyStrip (l : List Char) (c : Char) (h : c ∈ pyStrip l) : c ∈ l := by
  unfold pyStrip at h
  rw [List.mem_reverse] at h
  have h1 := (List.dropWhile_sublist isPySpace).subset h
  rw [List.mem_reverse] at h1
  exact (List.dropWhile_sublist isPySpace).subset h1

/-- Characters that can feed one of the markup-rewriting substitutions
of `clean_text_for_tts`: emphasis delimiters, bullet characters, Unicode
decimal digits and newlines. -/
def isTrigger (c : Char) : Bool :=
  c == '*' || c == '_' || c == Char.ofNat 96 || c == '-' || c == '•' ||
    c == '\n' || isPyDigit c

theorem trigger_parts (c : Char) (h : isTrigger c = false) :
    c ≠ '*' ∧ c ≠ '_' ∧ c ≠ Char.ofNat 96 ∧ isBullet c = false ∧
      isPyDigit c = false ∧ c ≠ '\n' := by
  simp only [isTrigger, Bool.or_eq_false_iff, beq_eq_false_iff_ne, ne_eq] at h
  obtain ⟨⟨⟨⟨⟨⟨h1, h2⟩, h3⟩, h4⟩, h5⟩, h6⟩, h7⟩ := h
  refine ⟨h1, h2, h3, ?_, h7, h6⟩
  simp [isBullet, h1, h4, h5]

/-- C2 amended: `clean_text_for_tts` is idempotent on every input that
contains none of the markup trigger characters `*`, `_`, backtick, `-`,
`•`, no Unicode decimal digit (the characters Python's `\d` matches)
and no newline.  (On general inputs it is not idempotent — see the
counterexamples "1.2." and "٣.٤.".) -/
theorem clean_text_for_tts_idem_no_markup (t : List Char)
    (h : ∀ c ∈ t, isTrigger c = false) :
    clean_text_for_tts (clean_text_for_tts t) = clean_text_for_tts t := by
  have hstar : ∀ c ∈ t, c ≠ '*' := fun c hc => (trigger_parts c (h c hc)).1
  have hund : ∀ c ∈ t, c ≠ '_' := fun c hc => (trigger_parts c (h c hc)).2.1
  have hbt : ∀ c ∈ t, c ≠ Char.ofNat 96 :=
    fun c hc => (trigger_parts c (h c hc)).2.2.1
  have hbul : ∀ c ∈ t, isBullet c = false :=
    fun c hc => (trigger_parts c (h c hc)).2.2.2.1
  have hdig : ∀ c ∈ t, isPyDigit c = false :=
    fun c hc => (trigger_parts c (h c hc)).2.2.2.2.1
  have hnl : ∀ c ∈ t, c ≠ '\n' :=
    fun c hc => (trigger_parts c (h c hc)).2.2.2.2.2
  have hwsub : ∀ c ∈ (t.filter (fun c => !isEmoji c)).filter
      (fun c => !isSymbolChar c), c ∈ t :=
    fun c hc => (List.mem_filter.mp ((List.mem_filter.mp hc).1)).1
  have hpass1 : clean_text_for_tts t =
      pyStrip (collapseWsF false
        ((t.filter (fun c => !isEmoji c)).filter (fun c => !isSymbolChar c))) := by
    simp only [clean_text_for_tts]
    rw [subDStarFuel_no_star t hstar, subDelimFuel_no_delim '*' t hstar,
        subUnderscoreFuel_no_underscore t hund,
        subDelimFuel_no_delim (Char.ofNat 96) t hbt,
        subBulletsFuel_no_bullet t hbul, subNumFuel_no_digit t hdig,
        subNewlinesF_no_newline _ (fun c hc => hnl c (hwsub c hc))]
  have humem : ∀ c ∈ pyStrip (collapseWsF false
      ((t.filter (fun c => !isEmoji c)).filter (fun c => !isSymbolChar c))),
      c = ' ' ∨ c ∈ (t.filter (fun c => !isEmoji c)).filter
        (fun c => !isSymbolChar c) :=
    fun c hc => mem_collapseWsF _ c false (mem_pyStrip _ c hc)
  have hu_trig : ∀ c ∈ pyStrip (collapseWsF false
      ((t.filter (fun c => !isEmoji c)).filter (fun c => !isSymbolChar c))),
      isTrigger c = false := by
    intro c hc
    rcases humem c hc with h' | h'
    · rw [h']; decide
    · exact h c (hwsub c h')
  have hu_emoji : ∀ c ∈ pyStrip (collapseWsF false
      ((t.filter (fun c => !isEmoji c)).filter (fun c => !isSymbolChar c))),
      (!isEmoji c) = true := by
    intro c hc
    rcases humem c hc with h' | h'
    · rw [h']; decide
    · exact (List.mem_filter.mp ((List.mem_filter.mp h').1)).2
  have hu_sym : ∀ c ∈ pyStrip (collapseWsF false
      ((t.filter (fun c => !isEmoji c)).filter (fun c => !isSymbolChar c))),
      (!isSymbolChar c) = true := by
    intro c hc
    rcases humem c hc with h' | h'
    · rw [h']; decide
    · exact (List.mem_filter.mp h').2
  have hpass2 : clean_text_for_tts (pyStrip (collapseWsF false
      ((t.filter (fun c => !isEmoji c)).filter (fun c => !isSymbolChar c)))) =
      pyStrip (collapseWsF false (pyStrip (collapseWsF false
        ((t.filter (fun c => !isEmoji c)).filter (fun c => !isSymbolChar c))))) := by
    simp only [clean_text_for_tts]
    rw [subDStarFuel_no_star _ (fun c hc => (trigger_parts c (hu_trig c hc)).1),
        subDelimFuel_no_delim '*' _ (fun c hc => (trigger_parts c (hu_trig c hc)).1),
        subUnderscoreFuel_no_underscore _
          (fun c hc => (trigger_parts c (hu_trig c hc)).2.1),
        subDelimFuel_no_delim (Char.ofNat 96) _
          (fun c hc => (trigger_parts c (hu_trig c hc)).2.2.1),
        subBulletsFuel_no_bullet _
          (fun c hc => (trigger_parts c (hu_trig c hc)).2.2.2.1),
        subNumFuel_no_digit _
          (fun c hc => (trigger_parts c (hu_trig c hc)).2.2.2.2.1),
        List.filter_eq_self.mpr hu_emoji, List.filter_eq_self.mpr hu_sym,
        subNewlinesF_no_newline _
          (fun c hc => (trigger_parts c (hu_trig c hc)).2.2.2.2.2)]
  rw [hpass1, hpass2,
      collapseWsF_of_wellSpaced _
        (wellSpaced_pyStrip _ (wellSpaced_collapseWsF _ false)),
      pyStrip_idem]

/-- C2 witness: concrete trigger-free input for
`clean_text_for_tts_idem_no_markup`. -/
theorem clean_text_for_tts_idem_no_markup_witness :
    clean_text_for_tts (clean_text_for_tts "Olá,  mundo! tudo bem? ★ ".data) =
      clean_text_for_tts "Olá,  mundo! tudo bem? ★ ".data :=
  clean_text_for_tts_idem_no_markup "Olá,  mundo! tudo bem? ★ ".data (by decide)

/-! ### Session lifecycle and interaction pipeline models

The OpenAI and Edge-TTS collaborators are modelled as environments that
record the outcome each upstream call would produce; the module-level
globals are an explicit record threaded through the functions.  `Except
Unit A` outcomes: `.error ()` models the call raising an exception. -/

/-- The module-level AI globals (backend lines 21-24, local lines
24-27): client, vector_store, assistant, thread, each None until
assigned.  Identifiers are abstracted to numbers; the constructed
OpenAI client is identifier 1. -/
structure SessionState where
  client : Option Nat
  vector_store : Option Nat
  assistant : Option Nat
  thread : Option Nat
deriving DecidableEq, Repr

/-- All globals unset: the state at process start. -/
def SessionState.empty : SessionState := ⟨none, none, none, none⟩

/-- Upstream view of an existing "Musicalia" assistant: its id, its
current instructions, and the vector-store ids of its file_search tool
resources (none when the tool resource is absent). -/
structure AssistantInfo where
  id : Nat
  instructions : List Char
  file_search_ids : Option (List Nat)
deriving DecidableEq, Repr

/-- instructions_text (backend lines 349-359, identical in the local
file): the Python line continuations join the lines including the
8-space indentation of each continuation line. -/
def instructions_text : List Char :=
  ("És a Musicalia, um avatar feminino inspirado na Amália Rodrigues, a icónica cantora de Fado portuguesa." ++ "        " ++
    " O teu propósito é envolver o público no intervalo de um concerto de música, partilhando histórias, curiosidades e o contexto histórico do Fado, de forma rica e poética." ++ "        " ++
    " Fala de forma descontraída e informal, com animação e tenta ser engraçada." ++ "        " ++
    " Evita linguagem demasiado técnica." ++ "        " ++
    " Responde sempre em português de Portugal." ++ "        " ++
    " Apenas respondes a perguntas sobre Fado, Amália Rodrigues e a cultura portuguesa." ++ "        " ++
    " Se a pergunta não for sobre esses temas, diz educadamente que não podes ajudar." ++ "        " ++
    "Não mencionas fontes de informação nas tuas respostas, nem referências a artigos ou publicações." ++ "        " ++
    " Responde de forma simples, curta, sem títulos, listas, ou qualquer formatação. Evita qualquer tipo de formatação, como negritos ou itálicos ou ícones gráficos." ++ "        " ++
    "Não uses emojis em nenhuma das tuas respostas." ++ "        " ++
    " Dá respostas curtas e diretas, com no máximo 3 a 5 frases.").data

/-- Outcomes of the upstream calls one run of the backend
initialize_ai_components would make. -/
structure InitEnv where
  modelsList : Except Unit Unit
  vectorStoresFind : Except Unit (Option Nat)
  vectorStoreCreate : Except Unit Nat
  infoPdfExists : Bool
  uploadOutcome : Except Unit Bool
  assistantsFind : Except Unit (Option AssistantInfo)
  assistantUpdate : Except Unit Unit
  assistantCreate : Except Unit Nat
  threadCreate : Except Unit Nat
deriving Repr

/-- Lines 344-409 (backend) / 276-331 (local): resolve the "Musicalia"
assistant: reuse an existing one — updating it when its instructions or
vector-store binding drift — else create it.  The vector store is always
set when this runs, so of the source's elif chain only the
`vector_store.id not in current_vstore_ids` test is live (the local
file's extra `not current_vstore_ids` disjunct is equivalent to it). -/
def resolveAssistant (update : Except Unit Unit) (create : Except Unit Nat)
    (vsid : Nat) : Option AssistantInfo → Except Unit Nat
  | some info =>
    let current_vstore_ids :=
      match info.file_search_ids with
      | some ids => ids
      | none => []
    let needs_update :=
      decide (pyStrip info.instructions ≠ pyStrip instructions_text) ||
        !(current_vstore_ids.contains vsid)
    if needs_update then
      match update with
      | .error _ => .error ()
      | .ok _ => .ok info.id
    else .ok info.id
  | none => create

/-- initialize_ai_components (backend lines 282-430).  The body runs
under a try whose handler (lines 422-430) resets all four globals to
None and returns False; the API-key verification probe has its own
handler (lines 297-300) that resets only the client; the document
upload has its own handler (lines 337-339) that only prints, so an
upload error never aborts the sequence. -/
def initialize_ai_components (env : InitEnv) (api_key : List Char)
    (st : SessionState) : Bool × SessionState :=
  if api_key = [] then (false, st)
  else
    let st1 := { st with client := some 1 }
    match env.modelsList with
    | .error _ => (false, { st1 with client := none })
    | .ok _ =>
      match env.vectorStoresFind with
      | .error _ => (false, SessionState.empty)
      | .ok found =>
        match (match found with
               | some vsid => Except.ok vsid
               | none => env.vectorStoreCreate : Except Unit Nat) with
        | .error _ => (false, SessionState.empty)
        | .ok vsid =>
          let st2 := { st1 with vector_store := some vsid }
          match env.assistantsFind with
          | .error _ => (false, SessionState.empty)
          | .ok afound =>
            match resolveAssistant env.assistantUpdate env.assistantCreate
                vsid afound with
            | .error _ => (false, SessionState.empty)
            | .ok aid =>
              let st3 := { st2 with assistant := some aid }
              match env.threadCreate with
              | .error _ => (false, SessionState.empty)
              | .ok tid => (true, { st3 with thread := some tid })

/-- Outcomes of the upstream calls of the local
initialize_ai_components (no key-verification probe). -/
structure InitEnvLocal where
  vectorStoresFind : Except Unit (Option Nat)
  vectorStoreCreate : Except Unit Nat
  infoPdfExists : Bool
  uploadOutcome : Except Unit Unit
  assistantsFind : Except Unit (Option AssistantInfo)
  assistantUpdate : Except Unit Unit
  assistantCreate : Except Unit Nat
  threadCreate : Except Unit Nat
deriving Repr

/-- initialize_ai_components (local lines 242-344).  Differences from
the backend version: no key-verification probe; the document upload on
the creation path is not wrapped in an inner try, so an upload error
aborts; and the except handler (lines 341-344) only prints and returns
False — it does NOT reset the globals, so partially-assigned state
survives a failure. -/
def initialize_ai_components_local (env : InitEnvLocal) (apiKeySet : Bool)
    (st : SessionState) : Bool × SessionState :=
  if ¬apiKeySet then (false, st)
  else
    let st1 := { st with client := some 1 }
    match env.vectorStoresFind with
    | .error _ => (false, st1)
    | .ok found =>
      match (match found with
             | some vsid => Except.ok vsid
             | none => env.vectorStoreCreate : Except Unit Nat) with
      | .error _ => (false, st1)
      | .ok vsid =>
        let st2 := { st1 with vector_store := some vsid }
        match (if found = none ∧ env.infoPdfExists then env.uploadOutcome
               else Except.ok () : Except Unit Unit) with
        | .error _ => (false, st2)
        | .ok _ =>
          match env.assistantsFind with
          | .error _ => (false, st2)
          | .ok afound =>
            match resolveAssistant env.assistantUpdate env.assistantCreate
                vsid afound with
            | .error _ => (false, st2)
            | .ok aid =>
              let st3 := { st2 with assistant := some aid }
              match env.threadCreate with
              | .error _ => (false, st3)
              | .ok tid => (true, { st3 with thread := some tid })

/-! ### C3: failure semantics of initialization -/

/-- C3 amended: in the backend version, starting from the process-start
empty state, a failed initialization always leaves the session state
fully empty, and a successful one implies that the key probe, the
vector-store lookup, the assistant lookup and the thread creation all
succeeded (any error in those steps aborts).  The document-upload step
and the local variant are the exceptions recorded by the
counterexample. -/
theorem initialize_ai_components_failure_resets :
    (∀ (env : InitEnv) (key : List Char),
      (initialize_ai_components env key SessionState.empty).1 = false →
        (initialize_ai_components env key SessionState.empty).2 =
          SessionState.empty) ∧
    (∀ (env : InitEnv) (key : List Char) (st : SessionState),
      (initialize_ai_components env key st).1 = true →
        env.modelsList = .ok () ∧ env.vectorStoresFind.isOk = true ∧
          env.assistantsFind.isOk = true ∧ env.threadCreate.isOk = true) := by
  constructor
  · intro env key hfail
    obtain ⟨ml, vsf, vsc, pdf, up, af, au, ac, tc⟩ := env
    unfold initialize_ai_components at hfail ⊢
    by_cases hk : key = []
    · simp [hk]
    · simp only [hk, if_neg, if_false] at hfail ⊢
      rcases ml with _ | ⟨⟩
      · rfl
      · rcases vsf with _ | found
        · rfl
        · rcases found with _ | vsid
          · rcases vsc with _ | vsid
            · rfl
            · rcases af with _ | afound
              · rfl
              · rcases h : resolveAssistant au ac vsid afound with _ | aid
                · simp [h]
                · simp only [h] at hfail ⊢
                  rcases tc with _ | tid
                  · rfl
                  · simp at hfail
          · rcases af with _ | afound
            · rfl
            · rcases h : resolveAssistant au ac vsid afound with _ | aid
              · simp [h]
              · simp only [h] at hfail ⊢
                rcases tc with _ | tid
                · rfl
                · simp at hfail
  · intro env key st hsucc
    obtain ⟨ml, vsf, vsc, pdf, up, af, au, ac, tc⟩ := env
    unfold initialize_ai_components at hsucc
    by_cases hk : key = []
    · simp [hk] at hsucc
    · simp only [hk, if_neg, if_false] at hsucc
      rcases ml with _ | ⟨⟩
      · simp at hsucc
      · rcases vsf with _ | found
        · simp at hsucc
        · rcases found with _ | vsid
          · rcases vsc with _ | vsid
            · simp at hsucc
            · rcases af with _ | afound
              · simp at hsucc
              · rcases h : resolveAssistant au ac vsid afound with _ | aid <;>
                  simp only [h] at hsucc
                · simp at hsucc
                · rcases tc with _ | tid
                  · simp at hsucc
                  · exact ⟨rfl, rfl, rfl, rfl⟩
          · rcases af with _ | afound
            · simp at hsucc
            · rcases h : resolveAssistant au ac vsid afound with _ | aid <;>
                simp only [h] at hsucc
              · simp at hsucc
              · rcases tc with _ | tid
                · simp at hsucc
                · exact ⟨rfl, rfl, rfl, rfl⟩

/-- C3 witness: instance of `initialize_ai_components_failure_resets`:
a thread-creation failure from the empty state leaves no partial
state. -/
theorem initialize_ai_components_failure_resets_witness :
    (initialize_ai_components
      ⟨.ok (), .ok (some 4), .ok 4, false, .ok true, .ok none, .ok (),
        .ok 7, .error ()⟩ "sk-test".data SessionState.empty).2 =
      SessionState.empty :=
  initialize_ai_components_failure_resets.1
    ⟨.ok (), .ok (some 4), .ok 4, false, .ok true, .ok none, .ok (),
      .ok 7, .error ()⟩ "sk-test".data (by decide)

/-- C3 counterexample: the claim fails on the code in two ways.  In the
local file a vector-store lookup failure returns False with the client
still assigned — the state is not reset to empty.  In the backend file a
document-upload error (a backend/network error) does not abort the
sequence at all: initialization still reports success. -/
theorem initialize_ai_components_failure_not_reset :
    (initialize_ai_components_local
      ⟨.error (), .ok 4, true, .ok (), .ok none, .ok (), .ok 7, .ok 9⟩
      true SessionState.empty) =
      (false, ⟨some 1, none, none, none⟩) ∧
    (⟨some 1, none, none, none⟩ : SessionState) ≠ SessionState.empty ∧
    (initialize_ai_components
      ⟨.ok (), .ok none, .ok 4, true, .error (), .ok none, .ok (),
        .ok 7, .ok 9⟩ "sk-test".data SessionState.empty) =
      (true, ⟨some 1, some 4, some 7, some 9⟩) := by
  refine ⟨by decide, by decide, by decide⟩

/-! ### C9: the initialize endpoint is idempotent once Ready -/

/-- initialize_ai_endpoint (backend lines 174-201).  `flag` is the
ai_initialized_successfully global; `body` is the parsed JSON: `none`
for a missing/empty body, `some none` for a body without an api_key
field, `some (some k)` for a provided key.  Returns the HTTP status and
the updated flag and session state. -/
def initialize_ai_endpoint (env : InitEnv) (flag : Bool) (st : SessionState)
    (body : Option (Option (List Char))) : Nat × Bool × SessionState :=
  if flag ∧ st.client ≠ none then (200, flag, st)
  else
    match body with
    | none => (400, flag, st)
    | some none => (400, flag, st)
    | some (some api_key) =>
      if pyStrip api_key = [] then (400, flag, st)
      else
        match initialize_ai_components env api_key st with
        | (true, st') => (200, true, st')
        | (false, st') => (500, false, st')

/-- C9: when initialization already succeeded and the client is set,
a further call to the initialize endpoint returns success (200)
immediately with the flag and the whole session state unchanged, for
every environment and request body — no backend call is consulted. -/
theorem initialize_ai_endpoint_idempotent (env : InitEnv) (flag : Bool)
    (st : SessionState) (body : Option (Option (List Char)))
    (hflag : flag = true) (hclient : st.client ≠ none) :
    initialize_ai_endpoint env flag st body = (200, flag, st) := by
  unfold initialize_ai_endpoint
  rw [if_pos ⟨hflag, hclient⟩]

/-- C9 witness: concrete instance of
`initialize_ai_endpoint_idempotent`. -/
theorem initialize_ai_endpoint_idempotent_witness :
    initialize_ai_endpoint
      ⟨.error (), .error (), .error (), false, .error (), .error (),
        .error (), .error (), .error ()⟩
      true ⟨some 1, some 2, some 3, some 4⟩ (some (some "sk-new".data)) =
      (200, true, ⟨some 1, some 2, some 3, some 4⟩) :=
  initialize_ai_endpoint_idempotent _ _ _ _ rfl (by decide)

/-! ### The interaction turn: process_interaction_and_speak and the
interact_audio endpoint -/

/-- Outcomes of the upstream calls of one interaction turn: the message
append, the streamed assistant run (its accumulated full_response text),
and text_to_speech_bytes (which returns None when TTS fails, lines
94-105). -/
structure TurnEnv where
  messageCreate : Except Unit Unit
  streamRun : Except Unit (List Char)
  tts : Option (List Nat)
deriving Repr

/-- process_interaction_and_speak (backend lines 108-171): returns
(audio bytes or None, emotion-code list or None). -/
def process_interaction_and_speak (env : TurnEnv) (flag : Bool)
    (st : SessionState) (_user_transcription : List Char) :
    Option (List Nat) × Option (List Nat) :=
  if ¬flag ∨ st.client = none ∨ st.assistant = none ∨ st.thread = none then
    (none, none)
  else
    match env.messageCreate with
    | .error _ => (none, none)
    | .ok _ =>
      match env.streamRun with
      | .error _ => (none, none)
      | .ok full_response =>
        let ai_text_to_speak := clean_text_for_tts (pyStrip full_response)
        if ai_text_to_speak.isEmpty then (none, some [0])
        else
          let analyzed_sentences := analyze_text ai_text_to_speak
          let codes := analyzed_sentences.map (fun p => p.2)
          let emotion_codes_list :=
            if codes.isEmpty && !analyzed_sentences.isEmpty then [0]
            else if analyzed_sentences.isEmpty then [0]
            else codes
          (env.tts, some emotion_codes_list)

/-- Request-level environment of one interact_audio call. -/
structure ReqEnv where
  hasFile : Bool
  transcribe : Except Unit (List Char)
  turn : TurnEnv
deriving Repr

/-- Body of an HTTP response: an audio/mpeg body or a JSON document. -/
inductive RespBody where
  | audio : List Nat → RespBody
  | json : List Char → RespBody
deriving DecidableEq, Repr

/-- An HTTP response: status, body, and the
X-Musicalia-Emotion-Codes header when set. -/
structure HttpResp where
  status : Nat
  body : RespBody
  emotionHeader : Option (List Char)
deriving DecidableEq, Repr

/-- `",".join(map(str, codes))` (backend line 255, local line 220). -/
def serializeCodes (codes : List Nat) : List Char :=
  List.intercalate [','] (codes.map (fun n => Nat.toDigits 10 n))

/-- interact_audio_endpoint (backend lines 205-278). -/
def interact_audio_endpoint (env : ReqEnv) (flag : Bool)
    (st : SessionState) : HttpResp :=
  if ¬flag ∨ st.client = none then
    ⟨403, .json "AI not initialized. Send API key to /initialize_ai first.".data,
      none⟩
  else if ¬env.hasFile then
    ⟨400, .json "No audio file provided".data, none⟩
  else
    match env.transcribe with
    | .error _ => ⟨500, .json "Internal server error".data, none⟩
    | .ok raw =>
      let user_transcription := pyStrip raw
      if user_transcription = [] then ⟨200, .audio [], some ['0']⟩
      else
        match process_interaction_and_speak env.turn flag st
            user_transcription with
        | (some ai_audio, codesOpt) =>
          let headerCodes :=
            match codesOpt with
            | none => [0]
            | some [] => [0]
            | some l => l
          ⟨200, .audio ai_audio, some (serializeCodes headerCodes)⟩
        | (none, _) => ⟨500, .audio [], some ['0']⟩

/-- The local file's code-span substitution
`re.sub(r"([^]+)", r"\1", text)` (line 352): the pattern `([^]+)` is an
unterminated character set, so compiling it raises `re.error` on every
call; the local sanitizer therefore never returns. -/
def clean_text_for_tts_local (_t : List Char) : Except Unit (List Char) :=
  .error ()

/-- process_interaction_and_speak (local lines 111-172): same structure
as the backend, but the sanitizer raises (caught by the handler of lines
169-172, yielding (None, None)), an empty sanitized reply would return
(None, []) and the codes default (line 154) lacks the backend's second
branch. -/
def process_interaction_and_speak_local (env : TurnEnv) (st : SessionState)
    (_user_transcription : List Char) :
    Option (List Nat) × Option (List Nat) :=
  if st.client = none ∨ st.assistant = none ∨ st.thread = none then
    (none, none)
  else
    match env.messageCreate with
    | .error _ => (none, none)
    | .ok _ =>
      match env.streamRun with
      | .error _ => (none, none)
      | .ok full_response =>
        match clean_text_for_tts_local (pyStrip full_response) with
        | .error _ => (none, none)
        | .ok ai_text_to_speak =>
          if ai_text_to_speak.isEmpty then (none, some [])
          else
            let analyzed_sentences := analyze_text ai_text_to_speak
            let codes := analyzed_sentences.map (fun p => p.2)
            let emotion_codes_list :=
              if codes.isEmpty && !analyzed_sentences.isEmpty then [0]
              else codes
            (env.tts, some emotion_codes_list)

/-- interact_audio_endpoint (local lines 176-238).  `apiKeySet` is the
OPENAI_API_KEY environment variable check of line 190; a transcription
attempt with an unset client raises and lands in the generic handler;
an empty transcription returns a 200 JSON message with no emotion
header (lines 207-209). -/
def interact_audio_endpoint_local (env : ReqEnv) (apiKeySet : Bool)
    (st : SessionState) : HttpResp :=
  if ¬env.hasFile then ⟨400, .json "No audio file provided".data, none⟩
  else if ¬apiKeySet then
    ⟨500, .json "OpenAI API key not configured".data, none⟩
  else if st.client = none then
    ⟨500, .json "Internal server error".data, none⟩
  else
    match env.transcribe with
    | .error _ => ⟨500, .json "Internal server error".data, none⟩
    | .ok raw =>
      let user_transcription := pyStrip raw
      if user_transcription = [] then
        ⟨200, .json "Transcription resulted in empty text, no AI interaction processed.".data,
          none⟩
      else
        match process_interaction_and_speak_local env.turn st
            user_transcription with
        | (some ai_audio, codesOpt) =>
          ⟨200, .audio ai_audio,
            some (serializeCodes (codesOpt.getD []))⟩
        | (none, _) =>
          ⟨500, .json "Error processing AI response or generating audio".data,
            none⟩

/-! ### C4: a reply that sanitizes to empty text -/

/-- C4 amended: when the aggregated reply sanitizes to the empty string,
process_interaction_and_speak does return null audio tagged with the
single Neutral code [0], but the interaction endpoint treats the null
audio as a failure: it responds with HTTP 500, an empty audio body and
emotion header "0" — not a successful response. -/
theorem empty_reply_turn_behavior (tenv : TurnEnv) (st : SessionState)
    (raw reply : List Char)
    (hc : st.client ≠ none) (ha : st.assistant ≠ none) (ht : st.thread ≠ none)
    (hmsg : tenv.messageCreate = .ok ()) (hrun : tenv.streamRun = .ok reply)
    (htr : pyStrip raw ≠ []) (hclean : clean_text_for_tts (pyStrip reply) = []) :
    process_interaction_and_speak tenv true st (pyStrip raw) =
      (none, some [0]) ∧
    interact_audio_endpoint ⟨true, .ok raw, tenv⟩ true st =
      ⟨500, .audio [], some ['0']⟩ := by
  have hproc : process_interaction_and_speak tenv true st (pyStrip raw) =
      (none, some [0]) := by
    unfold process_interaction_and_speak
    rw [if_neg (by simp [hc, ha, ht]), hmsg, hrun]
    simp [hclean]
  refine ⟨hproc, ?_⟩
  unfold interact_audio_endpoint
  rw [if_neg (by simp [hc]), if_neg (by simp)]
  simp only [show (⟨true, .ok raw, tenv⟩ : ReqEnv).transcribe = .ok raw from rfl]
  rw [if_neg htr]
  simp only [show (⟨true, .ok raw, tenv⟩ : ReqEnv).turn = tenv from rfl, hproc]

/-- C4 witness: concrete instance of `empty_reply_turn_behavior` (the
streamed reply "  " strips and sanitizes to the empty string). -/
theorem empty_reply_turn_behavior_witness :
    process_interaction_and_speak ⟨.ok (), .ok "  ".data, some [7]⟩ true
      ⟨some 1, some 2, some 3, some 4⟩ (pyStrip "olá".data) =
      (none, some [0]) ∧
    interact_audio_endpoint
      ⟨true, .ok "olá".data, ⟨.ok (), .ok "  ".data, some [7]⟩⟩ true
      ⟨some 1, some 2, some 3, some 4⟩ = ⟨500, .audio [], some ['0']⟩ :=
  empty_reply_turn_behavior ⟨.ok (), .ok "  ".data, some [7]⟩
    ⟨some 1, some 2, some 3, some 4⟩ "olá".data "  ".data
    (by decide) (by decide) (by decide) rfl rfl (by decide) (by decide)

/-- C4 counterexample: a turn whose reply sanitizes to empty yields a
500 error response from the endpoint, refuting the claimed successful
null-audio result. -/
theorem empty_reply_turn_returns_500 :
    (interact_audio_endpoint
      ⟨true, .ok "olá".data, ⟨.ok (), .ok "  ".data, some [7]⟩⟩ true
      ⟨some 1, some 2, some 3, some 4⟩).status = 500 := by
  decide

/-! ### C5: empty or whitespace-only transcription -/

/-- C5 amended: in the backend endpoint an empty or whitespace-only
transcription yields a successful (200) empty-audio response with
emotion header "0", and the result is the same for every generation/TTS
environment (none of those steps is reached).  The local endpoint
instead returns a 200 JSON message carrying no emotion codes at all —
the counterexample below. -/
theorem empty_transcription_backend (tenv : TurnEnv) (flag : Bool)
    (st : SessionState) (raw : List Char)
    (hflag : flag = true) (hc : st.client ≠ none) (htr : pyStrip raw = []) :
    interact_audio_endpoint ⟨true, .ok raw, tenv⟩ flag st =
      ⟨200, .audio [], some ['0']⟩ := by
  subst hflag
  unfold interact_audio_endpoint
  rw [if_neg (by simp [hc]), if_neg (by simp)]
  simp only [show (⟨true, .ok raw, tenv⟩ : ReqEnv).transcribe = .ok raw from rfl]
  rw [if_pos htr]

/-- C5 witness: concrete instance of `empty_transcription_backend`; the
turn environment in which every upstream call would fail shows that no
generation, scoring or synthesis step is consulted. -/
theorem empty_transcription_backend_witness :
    interact_audio_endpoint
      ⟨true, .ok "   ".data, ⟨.error (), .error (), none⟩⟩ true
      ⟨some 1, none, none, none⟩ = ⟨200, .audio [], some ['0']⟩ :=
  empty_transcription_backend ⟨.error (), .error (), none⟩ true
    ⟨some 1, none, none, none⟩ "   ".data rfl (by decide) (by decide)

/-- C5 counterexample: the local endpoint answers an empty transcription
with a 200 JSON message and no emotion header, so the response does not
carry the claimed emotion-code sequence [0]. -/
theorem empty_transcription_local_no_codes :
    interact_audio_endpoint_local
      ⟨true, .ok "  ".data, ⟨.ok (), .ok "x".data, some [7]⟩⟩ true
      ⟨some 1, none, none, none⟩ =
      ⟨200, .json "Transcription resulted in empty text, no AI interaction processed.".data,
        none⟩ := by
  decide

/-! ### C6: successful responses always carry valid emotion codes -/

theorem detect_emotion_cases (t : List Char) :
    detect_emotion t = 0 ∨ detect_emotion t = 1 ∨ detect_emotion t = 2 := by
  unfold detect_emotion
  split_ifs <;> simp

theorem process_codes_mem (env : TurnEnv) (flag : Bool) (st : SessionState)
    (tr : List Char) (a : Option (List Nat)) (codes : List Nat)
    (h : process_interaction_and_speak env flag st tr = (a, some codes)) :
    ∀ c ∈ codes, c = 0 ∨ c = 1 ∨ c = 2 := by
  unfold process_interaction_and_speak at h
  split at h
  · simp at h
  · split at h
    · simp at h
    · split at h
      · simp at h
      · dsimp only at h
        split at h
        · simp only [Prod.mk.injEq, Option.some.injEq] at h
          obtain ⟨-, rfl⟩ := h
          decide
        · split at h
          · simp only [Prod.mk.injEq, Option.some.injEq] at h
            obtain ⟨-, rfl⟩ := h
            decide
          · split at h
            · simp only [Prod.mk.injEq, Option.some.injEq] at h
              obtain ⟨-, rfl⟩ := h
              decide
            · simp only [Prod.mk.injEq, Option.some.injEq] at h
              obtain ⟨-, rfl⟩ := h
              intro c hc
              rw [List.mem_map] at hc
              obtain ⟨⟨s, e⟩, hmem, rfl⟩ := hc
              unfold analyze_text at hmem
              rw [List.mem_map] at hmem
              obtain ⟨s2, hs2, heq⟩ := hmem
              have h2 : detect_emotion s2 = (s, e).2 := congrArg Prod.snd heq
              rw [← h2]
              exact detect_emotion_cases s2

/-- C6 amended: every successful (status 200) response of the backend
interaction endpoint carries an emotion header that is the
comma-separated serialization of a non-empty code list whose elements
are all in {0, 1, 2} (degenerate turns default to the single code 0).
The local endpoint's empty-transcription 200 response carries no header
— the counterexample below. -/
theorem interact_audio_success_codes (env : ReqEnv) (flag : Bool)
    (st : SessionState)
    (h : (interact_audio_endpoint env flag st).status = 200) :
    ∃ codes : List Nat, codes ≠ [] ∧ (∀ c ∈ codes, c = 0 ∨ c = 1 ∨ c = 2) ∧
      (interact_audio_endpoint env flag st).emotionHeader =
        some (serializeCodes codes) := by
  by_cases h1 : (¬flag = true ∨ st.client = none)
  · unfold interact_audio_endpoint at h
    rw [if_pos h1] at h
    simp at h
  · by_cases h2 : ¬env.hasFile = true
    · unfold interact_audio_endpoint at h
      rw [if_neg h1, if_pos h2] at h
      simp at h
    · rcases henv : env.transcribe with e | raw
      · unfold interact_audio_endpoint at h
        rw [if_neg h1, if_neg h2] at h
        simp only [henv] at h
        simp at h
      · by_cases h3 : pyStrip raw = []
        · refine ⟨[0], by simp, by decide, ?_⟩
          unfold interact_audio_endpoint
          rw [if_neg h1, if_neg h2]
          simp only [henv]
          rw [if_pos h3]
          rfl
        · rcases hp : process_interaction_and_speak env.turn flag st
              (pyStrip raw) with ⟨aud, codesOpt⟩
          rcases aud with _ | bytes
          · unfold interact_audio_endpoint at h
            rw [if_neg h1, if_neg h2] at h
            simp only [henv] at h
            rw [if_neg h3] at h
            simp only [hp] at h
            simp at h
          · rcases codesOpt with _ | codes
            · refine ⟨[0], by simp, by decide, ?_⟩
              unfold interact_audio_endpoint
              rw [if_neg h1, if_neg h2]
              simp only [henv]
              rw [if_neg h3]
              simp only [hp]
            · rcases codes with _ | ⟨c0, cs0⟩
              · refine ⟨[0], by simp, by decide, ?_⟩
                unfold interact_audio_endpoint
                rw [if_neg h1, if_neg h2]
                simp only [henv]
                rw [if_neg h3]
                simp only [hp]
              · refine ⟨c0 :: cs0, by simp, ?_, ?_⟩
                · exact process_codes_mem env.turn flag st (pyStrip raw)
                    (some bytes) (c0 :: cs0) hp
                · unfold interact_audio_endpoint
                  rw [if_neg h1, if_neg h2]
                  simp only [henv]
                  rw [if_neg h3]
                  simp only [hp]

/-- C6 witness: concrete instance of `interact_audio_success_codes`. -/
theorem interact_audio_success_codes_witness :
    ∃ codes : List Nat, codes ≠ [] ∧ (∀ c ∈ codes, c = 0 ∨ c = 1 ∨ c = 2) ∧
      (interact_audio_endpoint
        ⟨true, .ok " ".data, ⟨.ok (), .ok "x".data, some [7]⟩⟩ true
        ⟨some 1, some 2, some 3, some 4⟩).emotionHeader =
        some (serializeCodes codes) :=
  interact_audio_success_codes _ _ _ (by decide)

/-- C6 counterexample: the local endpoint's empty-transcription response
is successful (200) yet carries no emotion header at all, refuting
"always present and non-empty on a successful response". -/
theorem interact_audio_local_success_no_header :
    (interact_audio_endpoint_local
      ⟨true, .ok "\t ".data, ⟨.ok (), .ok "y".data, some [7]⟩⟩ true
      ⟨some 1, none, none, none⟩).status = 200 ∧
    (interact_audio_endpoint_local
      ⟨true, .ok "\t ".data, ⟨.ok (), .ok "y".data, some [7]⟩⟩ true
      ⟨some 1, none, none, none⟩).emotionHeader = none := by
  refine ⟨by decide, by decide⟩
